import Mathlib

/-!
Verification development for the hospital_system sources.

The definitions below are a shallow embedding of the C sources under
src/hospital_system/src: message queues (mq.c), the command translator
(command_handler.c, console_input.c, manager_utils.c), the triage vitals
monitor and appointment intake (triage.c), the pharmacy stock protocol and
dispatcher counters (pharmacy.c), the lab PREOP worker (lab.c) and the
surgery admission path (surgery.c).  Machine integers are modelled as Int
or Nat; SysV message queues as lists in arrival order.
-/

-- ===========================================================================
-- Message kinds and priorities (include/mq.h)
-- ===========================================================================

/-- Value of MSG_NEW_EMERGENCY in message_kind_t (C enum starting at 1). -/
def MSG_NEW_EMERGENCY : Nat := 1

/-- Value of MSG_NEW_APPOINTMENT in message_kind_t. -/
def MSG_NEW_APPOINTMENT : Nat := 2

/-- Value of MSG_NEW_SURGERY in message_kind_t. -/
def MSG_NEW_SURGERY : Nat := 3

/-- Value of MSG_PHARMACY_REQUEST in message_kind_t. -/
def MSG_PHARMACY_REQUEST : Nat := 4

/-- Value of MSG_PHARM_READY in message_kind_t. -/
def MSG_PHARM_READY : Nat := 5

/-- Value of MSG_LAB_REQUEST in message_kind_t. -/
def MSG_LAB_REQUEST : Nat := 6

/-- Value of MSG_LAB_RESULTS_READY in message_kind_t. -/
def MSG_LAB_RESULTS_READY : Nat := 7

/-- Value of MSG_SHUTDOWN in message_kind_t. -/
def MSG_SHUTDOWN : Nat := 11

/-- PRIORITY_URGENT from mq.h. -/
def PRIORITY_URGENT : Nat := 1

/-- PRIORITY_HIGH from mq.h. -/
def PRIORITY_HIGH : Nat := 2

/-- PRIORITY_NORMAL from mq.h. -/
def PRIORITY_NORMAL : Nat := 3

-- ===========================================================================
-- SysV message-queue model (mq.c)
-- ===========================================================================

/-- Header of a queued record: the msgsnd mtype and the kind field of
msg_header_t.  A mailbox is a List Msg in arrival (send) order. -/
structure Msg where
  mtype : Nat
  kind : Nat
deriving DecidableEq

/-- The eligible record msgrcv would pick for msgtyp = -bound: the earliest
record among those with the smallest mtype that is at most bound.
Single pass mirroring the kernel selection rule. -/
def bestElig (bound : Nat) : List Msg → Option Msg
  | [] => none
  | m :: rest =>
    match bestElig bound rest with
    | none => if m.mtype ≤ bound then some m else none
    | some b => if m.mtype ≤ bound ∧ m.mtype ≤ b.mtype then some m else some b

/-- msgrcv with a negative msgtyp (-bound): remove and return the earliest
record of the lowest mtype that is ≤ bound; none models blocking. -/
def msgrcvUpTo (q : List Msg) (bound : Nat) : Option (Msg × List Msg) :=
  match bestElig bound q with
  | none => none
  | some m => some (m, q.eraseP (fun x => x.mtype == m.mtype))

/-- msgrcv with msgtyp = 0: the first record on the queue, plain FIFO. -/
def msgrcvFirst (q : List Msg) : Option (Msg × List Msg) :=
  match q with
  | [] => none
  | m :: rest => some (m, rest)

/-- receive_generic_message (mq.c): msgrcv with msgtyp =
MAX_PRIORITY_TO_ACCEPT(max_priority_type) = -(max_priority_type).
For max_priority_type = 0 this is msgtyp 0, which is plain FIFO;
otherwise it is the lowest-mtype-first rule. -/
def receive_generic_message (q : List Msg) (max_priority_type : Nat) :
    Option (Msg × List Msg) :=
  if max_priority_type = 0 then msgrcvFirst q else msgrcvUpTo q max_priority_type

/-- receive_specific_message (mq.c): msgrcv with a positive msgtyp, returning
the earliest record whose mtype equals message_type. -/
def receive_specific_message (q : List Msg) (message_type : Nat) :
    Option (Msg × List Msg) :=
  match q.find? (fun x => x.mtype == message_type) with
  | none => none
  | some m => some (m, q.eraseP (fun x => x.mtype == message_type))

/-- The Surgery dispatcher's receive (surgery.c dispatcher_loop): it passes
max_priority_type 0 to receive_generic_message. -/
def surgery_dispatcher_receive (q : List Msg) : Option (Msg × List Msg) :=
  receive_generic_message q 0

/-- The Pharmacy dispatcher's receive (pharmacy.c process_pharmacy_requests):
receive_generic_message with PRIORITY_NORMAL. -/
def pharmacy_dispatcher_receive (q : List Msg) : Option (Msg × List Msg) :=
  receive_generic_message q PRIORITY_NORMAL

/-- The Lab dispatcher's receive (lab.c dispatcher_loop):
receive_generic_message with PRIORITY_NORMAL. -/
def lab_dispatcher_receive (q : List Msg) : Option (Msg × List Msg) :=
  receive_generic_message q PRIORITY_NORMAL

-- ===========================================================================
-- Character and string helpers used by the command translator
-- ===========================================================================

/-- C isspace over the ASCII range: space, tab, newline, vertical tab,
form feed, carriage return. -/
def isSpaceChar (c : Char) : Bool :=
  c == ' ' || c.toNat == 9 || c.toNat == 10 || c.toNat == 11 ||
  c.toNat == 12 || c.toNat == 13

/-- ASCII tolower for a single character (strcasecmp model). -/
def lowerChar (c : Char) : Char :=
  if 'A' ≤ c ∧ c ≤ 'Z' then Char.ofNat (c.toNat + 32) else c

/-- strcasecmp(a, b) == 0: case-insensitive ASCII equality. -/
def strcaseEq (a b : String) : Bool :=
  a.toList.map lowerChar == b.toList.map lowerChar

/-- Digit-run accumulator of C atoi: consume leading digits, stop at the
first non-digit. -/
def atoiLoop : List Char → Nat → Nat
  | [], acc => acc
  | c :: cs, acc =>
    if c.isDigit then atoiLoop cs (acc * 10 + (c.toNat - 48)) else acc

/-- C atoi: skip leading whitespace, optional sign, parse the digit run
(0 when there are no digits). -/
def atoi (s : String) : Int :=
  match s.toList.dropWhile isSpaceChar with
  | '-' :: cs => - (atoiLoop cs 0 : Int)
  | '+' :: cs => (atoiLoop cs 0 : Int)
  | cs => (atoiLoop cs 0 : Int)

/-- Split character list at every occurrence of sep (raw split, empty pieces
kept). -/
def splitChars (sep : Char) : List Char → List (List Char)
  | [] => [[]]
  | c :: cs =>
    match splitChars sep cs with
    | [] => [[c]]
    | h :: t => if c = sep then [] :: h :: t else (c :: h) :: t

/-- strtok-style tokenization on one separator: empty tokens are skipped. -/
def strtokSplit (sep : Char) (cs : List Char) : List (List Char) :=
  (splitChars sep cs).filter (fun t => !t.isEmpty)

/-- trim_whitespace from console_input.c: strip isspace characters from both
ends. -/
def trimChars (cs : List Char) : List Char :=
  ((cs.dropWhile isSpaceChar).reverse.dropWhile isSpaceChar).reverse

/-- Join character lists with a separator character (the text that follows
the first colon of a token, colons included). -/
def joinWithChar (sep : Char) : List (List Char) → List Char
  | [] => []
  | [x] => x
  | x :: y :: t => x ++ sep :: joinWithChar sep (y :: t)

-- ===========================================================================
-- Catalog lookups (console_input.c)
-- ===========================================================================

/-- get_test_id from console_input.c. -/
def get_test_id (name : String) : Int :=
  if name = "HEMO" then 0
  else if name = "GLIC" then 1
  else if name = "COLEST" then 2
  else if name = "RENAL" then 3
  else if name = "HEPAT" then 4
  else if name = "PREOP" then 5
  else -1

/-- get_specialty_id from console_input.c. -/
def get_specialty_id (name : String) : Int :=
  if name = "CARDIO" then 0
  else if name = "ORTHO" then 1
  else if name = "NEURO" then 2
  else -1

/-- get_urgency_id from console_input.c. -/
def get_urgency_id (name : String) : Int :=
  if name = "LOW" then 0
  else if name = "MEDIUM" then 1
  else if name = "HIGH" then 2
  else -1

/-- get_med_id from console_input.c: index of the medication name in the
configured catalog, -1 when absent.  The catalog parameterizes the embedding
(config->medications). -/
def get_med_id (catalog : List String) (name : String) : Int :=
  match catalog.findIdx? (fun m => m == name) with
  | some i => (i : Int)
  | none => -1

/-- parse_list_ids from console_input.c: token must start with a bracket;
content runs to the first closing bracket; split on commas, trim each piece,
map it, keep the valid ids (≠ -1), at most max_count of them. -/
def parse_list_ids (str : String) (max_count : Nat) (map_func : String → Int) :
    List Int :=
  match str.toList with
  | '[' :: rest =>
    let content := rest.takeWhile (fun c => c != ']')
    let toks := strtokSplit ',' content
    ((toks.map (fun t => map_func (String.mk (trimChars t)))).filter
      (fun i => i != -1)).take max_count
  | _ => []

/-- parse_med_qty_list from console_input.c: pieces of the form name:qty;
the name is looked up in the catalog (no trimming in the source), the
quantity is atoi of everything after the first colon. -/
def parse_med_qty_list (catalog : List String) (str : String) (max_count : Nat) :
    List (Int × Int) :=
  match str.toList with
  | '[' :: rest =>
    let content := rest.takeWhile (fun c => c != ']')
    let toks := strtokSplit ',' content
    (toks.filterMap (fun t =>
      match splitChars ':' t with
      | name :: r :: more =>
        let id := get_med_id catalog (String.mk name)
        if id != -1 then
          some (id, atoi (String.mk (joinWithChar ':' (r :: more))))
        else none
      | _ => none)).take max_count
  | _ => []

-- ===========================================================================
-- ID validation (manager_utils.c)
-- ===========================================================================

/-- The id_type_t selector of validate_id. -/
inductive IdType where
  | patient
  | lab
  | pharmacy
deriving DecidableEq

/-- First-argument-leads comparison of strncmp(id, expected, 3) == 0. -/
def listBeginsWith : List Char → List Char → Bool
  | [], _ => true
  | _ :: _, [] => false
  | p :: ps, c :: cs => p == c && listBeginsWith ps cs

/-- validate_id from manager_utils.c: length 5..15, a 3-character role
header (PAC for patients, LAB for lab requests, REQ for pharmacy requests),
digits for the remainder. -/
def validate_id (id : String) (t : IdType) : Bool :=
  let cs := id.toList
  if cs.length < 5 ∨ 15 < cs.length then false
  else
    let expected : List Char :=
      match t with
      | .patient => ['P', 'A', 'C']
      | .lab => ['L', 'A', 'B']
      | .pharmacy => ['R', 'E', 'Q']
    if ¬ listBeginsWith expected cs then false
    else (cs.drop 3).all Char.isDigit

/-- validate_patient_id from manager_utils.c, the legacy wrapper used by
every branch of handle_command. -/
def validate_patient_id (id : String) : Bool :=
  validate_id id .patient

-- ===========================================================================
-- Command translation (command_handler.c)
-- ===========================================================================

/-- Disposition of a textual command in handle_command: rejected with a
validation warning, sent to the target mailbox now, or handed to the
deferred-event scheduler for the given tick. -/
inductive CmdOutcome (α : Type) where
  | rejected : CmdOutcome α
  | sentNow : α → CmdOutcome α
  | scheduled : Int → α → CmdOutcome α
deriving DecidableEq

/-- msg_new_surgery_t as filled by the SURGERY branch of handle_command. -/
structure NewSurgeryMsg where
  mtype : Nat
  kind : Nat
  patient_id : String
  operation_id : Int
  timestamp : Int
  estimated_duration : Int
  scheduled_time : Int
  surgery_type : Int
  urgency : Int
  tests_id : List Int
  meds_id : List Int
deriving DecidableEq

/-- msg_new_appointment_t as filled by the APPOINTMENT branch. -/
structure NewAppointmentMsg where
  mtype : Nat
  kind : Nat
  patient_id : String
  operation_id : Int
  timestamp : Int
  scheduled_time : Int
  doctor_specialty : Int
  tests_id : List Int
deriving DecidableEq

/-- msg_pharmacy_request_t as filled by the PHARMACY_REQUEST branch; the
parallel meds_id and meds_qty arrays are carried as id-quantity pairs. -/
structure PharmacyRequestMsg where
  mtype : Nat
  kind : Nat
  patient_id : String
  operation_id : Int
  timestamp : Int
  items : List (Int × Int)
deriving DecidableEq

/-- msg_lab_request_t as filled by the LAB_REQUEST branch. -/
structure LabRequestMsg where
  mtype : Nat
  kind : Nat
  patient_id : String
  operation_id : Int
  timestamp : Int
  tests_id : List Int
deriving DecidableEq

/-- Parameter-scan state of the SURGERY branch (its local variables). -/
structure SurgeryParams where
  init : Int
  has_init : Bool
  scheduled : Int
  has_scheduled : Bool
  type_id : Int
  has_type : Bool
  urgency_id : Int
  has_urgency : Bool
  tests : List Int
  meds : List Int
deriving DecidableEq

/-- Initial local-variable values of the SURGERY branch. -/
def initSurgeryParams : SurgeryParams :=
  { init := -1, has_init := false, scheduled := -1, has_scheduled := false
  , type_id := -1, has_type := false, urgency_id := -1, has_urgency := false
  , tests := [], meds := [] }

/-- The strtok_r parameter loop of the SURGERY branch over the remaining
tokens of the command line. -/
def scanSurgeryTokens (catalog : List String) :
    List String → SurgeryParams → SurgeryParams
  | [], ps => ps
  | [_], ps => ps
  | t :: v :: rest, ps =>
    if t = "init:" then
      scanSurgeryTokens catalog rest { ps with init := atoi v, has_init := true }
    else if t = "type:" then
      let tid := get_specialty_id v
      scanSurgeryTokens catalog rest
        { ps with
          type_id := tid,
          has_type := if tid != -1 then true else ps.has_type }
    else if t = "scheduled:" then
      scanSurgeryTokens catalog rest
        { ps with scheduled := atoi v, has_scheduled := true }
    else if t = "urgency:" then
      let uid := get_urgency_id v
      scanSurgeryTokens catalog rest
        { ps with
          urgency_id := uid,
          has_urgency := if uid != -1 then true else ps.has_urgency }
    else if t = "tests:" then
      scanSurgeryTokens catalog rest
        { ps with tests := parse_list_ids v 5 get_test_id }
    else if t = "meds:" then
      scanSurgeryTokens catalog rest
        { ps with meds := parse_list_ids v 5 (get_med_id catalog) }
    else
      scanSurgeryTokens catalog (v :: rest) ps

/-- The SURGERY branch of handle_command: args are the tokens after the verb,
current_time is the tick passed to handle_command.  The message header is
zeroed by memset and hdr.operation_id is never assigned in this branch, so
every admitted surgery record carries operation_id 0. -/
def handle_surgery_command (catalog : List String) (args : List String)
    (current_time : Int) : CmdOutcome NewSurgeryMsg :=
  match args with
  | [] => .rejected
  | code :: rest =>
    if ¬ validate_patient_id code then .rejected
    else
      let ps := scanSurgeryTokens catalog rest initSurgeryParams
      if ¬ ps.has_init ∨ ps.init < 0 then .rejected
      else if ¬ ps.has_scheduled ∨ ps.scheduled < ps.init then .rejected
      else if ¬ ps.has_type then .rejected
      else if ¬ ps.has_urgency then .rejected
      else if ¬ ps.tests.contains (get_test_id "PREOP") then .rejected
      else if ps.meds.length < 1 then .rejected
      else
        let msg : NewSurgeryMsg :=
          { mtype := 1, kind := MSG_NEW_SURGERY, patient_id := code
          , operation_id := 0, timestamp := current_time + ps.init
          , estimated_duration := 0, scheduled_time := ps.scheduled
          , surgery_type := ps.type_id, urgency := ps.urgency_id
          , tests_id := ps.tests, meds_id := ps.meds }
        if msg.timestamp ≤ current_time then .sentNow msg
        else .scheduled msg.timestamp msg

/-- Parameter-scan state of the APPOINTMENT branch. -/
structure AppointmentParams where
  init : Int
  has_init : Bool
  scheduled : Int
  has_scheduled : Bool
  doctor_id : Int
  has_doctor : Bool
  tests : List Int
deriving DecidableEq

/-- Initial local-variable values of the APPOINTMENT branch. -/
def initAppointmentParams : AppointmentParams :=
  { init := -1, has_init := false, scheduled := -1, has_scheduled := false
  , doctor_id := -1, has_doctor := false, tests := [] }

/-- The strtok_r parameter loop of the APPOINTMENT branch. -/
def scanAppointmentTokens :
    List String → AppointmentParams → AppointmentParams
  | [], ps => ps
  | [_], ps => ps
  | t :: v :: rest, ps =>
    if t = "init:" then
      scanAppointmentTokens rest { ps with init := atoi v, has_init := true }
    else if t = "scheduled:" then
      scanAppointmentTokens rest
        { ps with scheduled := atoi v, has_scheduled := true }
    else if t = "doctor:" then
      let did := get_specialty_id v
      scanAppointmentTokens rest
        { ps with
          doctor_id := did,
          has_doctor := if did != -1 then true else ps.has_doctor }
    else if t = "tests:" then
      scanAppointmentTokens rest
        { ps with tests := parse_list_ids v 3 get_test_id }
    else
      scanAppointmentTokens (v :: rest) ps

/-- The APPOINTMENT branch of handle_command.  Note the mtype: the branch sets
msg.hdr.mtype = 1 and never overwrites it, although the triage appointment
intake filters the mailbox on mtype MSG_NEW_APPOINTMENT = 2. -/
def handle_appointment_command (args : List String) (current_time : Int) :
    CmdOutcome NewAppointmentMsg :=
  match args with
  | [] => .rejected
  | code :: rest =>
    if ¬ validate_patient_id code then .rejected
    else
      let ps := scanAppointmentTokens rest initAppointmentParams
      if ¬ ps.has_init ∨ ps.init < 0 then .rejected
      else if ¬ ps.has_scheduled ∨ ps.scheduled ≤ current_time + ps.init then
        .rejected
      else if ¬ ps.has_doctor then .rejected
      else
        let msg : NewAppointmentMsg :=
          { mtype := 1, kind := MSG_NEW_APPOINTMENT, patient_id := code
          , operation_id := 0, timestamp := current_time + ps.init
          , scheduled_time := ps.scheduled, doctor_specialty := ps.doctor_id
          , tests_id := ps.tests }
        if msg.timestamp ≤ current_time then .sentNow msg
        else .scheduled msg.timestamp msg

/-- Parameter-scan state of the PHARMACY_REQUEST branch. -/
structure PharmacyParams where
  init : Int
  has_init : Bool
  priority : Int
  has_priority : Bool
  items : List (Int × Int)
deriving DecidableEq

/-- Initial local-variable values of the PHARMACY_REQUEST branch. -/
def initPharmacyParams : PharmacyParams :=
  { init := -1, has_init := false, priority := -1, has_priority := false
  , items := [] }

/-- The strtok_r parameter loop of the PHARMACY_REQUEST branch; priority
names are matched case-insensitively (strcasecmp). -/
def scanPharmacyTokens (catalog : List String) :
    List String → PharmacyParams → PharmacyParams
  | [], ps => ps
  | [_], ps => ps
  | t :: v :: rest, ps =>
    if t = "init:" then
      scanPharmacyTokens catalog rest { ps with init := atoi v, has_init := true }
    else if t = "priority:" then
      let pr : Int :=
        if strcaseEq v "URGENT" then (PRIORITY_URGENT : Nat)
        else if strcaseEq v "HIGH" then (PRIORITY_HIGH : Nat)
        else if strcaseEq v "NORMAL" then (PRIORITY_NORMAL : Nat)
        else ps.priority
      scanPharmacyTokens catalog rest
        { ps with
          priority := pr,
          has_priority := if pr != -1 then true else ps.has_priority }
    else if t = "items:" then
      scanPharmacyTokens catalog rest
        { ps with items := parse_med_qty_list catalog v 8 }
    else
      scanPharmacyTokens catalog (v :: rest) ps

/-- The PHARMACY_REQUEST branch of handle_command.  The request id is
validated with validate_patient_id, which requires the PAC patient header,
not the REQ pharmacy header of validate_id. -/
def handle_pharmacy_command (catalog : List String) (args : List String)
    (current_time : Int) : CmdOutcome PharmacyRequestMsg :=
  match args with
  | [] => .rejected
  | code :: rest =>
    if ¬ validate_patient_id code then .rejected
    else
      let ps := scanPharmacyTokens catalog rest initPharmacyParams
      if ¬ ps.has_init ∨ ps.init < 0 then .rejected
      else if ¬ ps.has_priority then .rejected
      else
        let msg : PharmacyRequestMsg :=
          { mtype := ps.priority.toNat, kind := MSG_PHARMACY_REQUEST
          , patient_id := code, operation_id := 0
          , timestamp := current_time + ps.init, items := ps.items }
        if msg.timestamp ≤ current_time then .sentNow msg
        else .scheduled msg.timestamp msg

/-- Parameter-scan state of the LAB_REQUEST branch. -/
structure LabParams where
  init : Int
  has_init : Bool
  priority : Int
  has_priority : Bool
  has_lab : Bool
  tests : List Int
deriving DecidableEq

/-- Initial local-variable values of the LAB_REQUEST branch. -/
def initLabParams : LabParams :=
  { init := -1, has_init := false, priority := -1, has_priority := false
  , has_lab := false, tests := [] }

/-- The strtok_r parameter loop of the LAB_REQUEST branch.  The lab selector
is only checked to be one of LAB1, LAB2 or BOTH; it is not stored and no
selector-test compatibility is checked anywhere in the branch. -/
def scanLabTokens : List String → LabParams → LabParams
  | [], ps => ps
  | [_], ps => ps
  | t :: v :: rest, ps =>
    if t = "init:" then
      scanLabTokens rest { ps with init := atoi v, has_init := true }
    else if t = "priority:" then
      let pr : Int :=
        if strcaseEq v "URGENT" then (PRIORITY_URGENT : Nat)
        else if strcaseEq v "NORMAL" then (PRIORITY_NORMAL : Nat)
        else ps.priority
      scanLabTokens rest
        { ps with
          priority := pr,
          has_priority := if pr != -1 then true else ps.has_priority }
    else if t = "lab:" then
      scanLabTokens rest
        { ps with has_lab :=
            if strcaseEq v "LAB1" || strcaseEq v "LAB2" || strcaseEq v "BOTH"
            then true else ps.has_lab }
    else if t = "tests:" then
      scanLabTokens rest { ps with tests := parse_list_ids v 4 get_test_id }
    else
      scanLabTokens (v :: rest) ps

/-- The LAB_REQUEST branch of handle_command. -/
def handle_lab_command (args : List String) (current_time : Int) :
    CmdOutcome LabRequestMsg :=
  match args with
  | [] => .rejected
  | code :: rest =>
    if ¬ validate_patient_id code then .rejected
    else
      let ps := scanLabTokens rest initLabParams
      if ¬ ps.has_init ∨ ps.init < 0 then .rejected
      else if ¬ ps.has_priority then .rejected
      else if ¬ ps.has_lab then .rejected
      else
        let msg : LabRequestMsg :=
          { mtype := ps.priority.toNat, kind := MSG_LAB_REQUEST
          , patient_id := code, operation_id := 0
          , timestamp := current_time + ps.init, tests_id := ps.tests }
        if msg.timestamp ≤ current_time then .sentNow msg
        else .scheduled msg.timestamp msg

/-- get_target_lab from lab.c: which bench runs a test id (1 = Lab1 for
HEMO and GLIC, 2 = Lab2 for COLEST, RENAL and HEPAT, 0 marks the two-phase
PREOP, -1 invalid). -/
def get_target_lab (test_id : Int) : Int :=
  if test_id = 0 ∨ test_id = 1 then 1
  else if test_id = 2 ∨ test_id = 3 ∨ test_id = 4 then 2
  else if test_id = 5 then 0
  else -1

-- ===========================================================================
-- Surgery admission (surgery.c)
-- ===========================================================================

/-- The fields of active_surgery_t that spawn_surgery_worker initializes
from a msg_new_surgery_t (synchronization handles omitted). -/
structure ActiveSurgery where
  surgery_id : Int
  patient_id : String
  surgery_type : Int
  urgency : Int
  scheduled_time : Int
  estimated_duration : Int
  tests_id : List Int
  meds_id : List Int
  tests_done : Bool
  meds_ok : Bool
  needs_tests : Bool
  needs_meds : Bool
  active : Bool
deriving DecidableEq

/-- spawn_surgery_worker (surgery.c): the active record constructed for an
admitted MSG_NEW_SURGERY message.  The surgery id is copied from the
message header: surgery->surgery_id = msg->hdr.operation_id. -/
def spawn_surgery_worker (msg : NewSurgeryMsg) : ActiveSurgery :=
  { surgery_id := msg.operation_id
  , patient_id := msg.patient_id
  , surgery_type := msg.surgery_type
  , urgency := msg.urgency
  , scheduled_time := msg.scheduled_time
  , estimated_duration := msg.estimated_duration
  , tests_id := msg.tests_id
  , meds_id := msg.meds_id
  , tests_done := false
  , meds_ok := false
  , needs_tests := decide (0 < msg.tests_id.length)
  , needs_meds := decide (0 < msg.meds_id.length)
  , active := true }

-- ===========================================================================
-- Triage queues and vitals monitor (triage.c)
-- ===========================================================================

/-- TriagePatient from triage.c; type is 1 for emergency, 2 for appointment
(the C field named type is ptype here). -/
structure TriagePatient where
  id : String
  ptype : Nat
  priority : Int
  stability : Int
  arrival_time : Int
  scheduled_time : Int
  is_critical : Bool
  tests_id : List Int
  meds_id : List Int
  doctor_specialty : Int
deriving DecidableEq

/-- The comparison chain of insert_emergency_sorted: true when p is placed
before entry (critical first, then priority ascending, then arrival
ascending; ties go after). -/
def emergencyGoesBefore (p entry : TriagePatient) : Bool :=
  if p.is_critical ∧ ¬ entry.is_critical then true
  else if ¬ p.is_critical ∧ entry.is_critical then false
  else if p.priority < entry.priority then true
  else if entry.priority < p.priority then false
  else p.arrival_time < entry.arrival_time

/-- insert_emergency_sorted from triage.c. -/
def insert_emergency_sorted (p : TriagePatient) :
    List TriagePatient → List TriagePatient
  | [] => [p]
  | e :: rest =>
    if emergencyGoesBefore p e then p :: e :: rest
    else e :: insert_emergency_sorted p rest

/-- A heap node of the triage emergency linked list: the TriagePatient
value and the next pointer, addresses being Nat. -/
structure QNode where
  val : TriagePatient
  nxt : Option Nat
deriving DecidableEq

/-- The emergency queue as the C program holds it: a finite heap of
addressed nodes (all addresses distinct), the head pointer, and the count
field that triage.c maintains separately from the links. -/
structure EmergencyQueue where
  heap : List (Nat × QNode)
  head : Option Nat
  count : Int
deriving DecidableEq

/-- Dereference an address in the heap. -/
def lookupNode (heap : List (Nat × QNode)) (a : Nat) : Option QNode :=
  (heap.find? (fun e => e.1 == a)).map (fun e => e.2)

/-- Write the patient value stored at an address. -/
def setValH (heap : List (Nat × QNode)) (a : Nat) (v : TriagePatient) :
    List (Nat × QNode) :=
  heap.map (fun e => if e.1 == a then (e.1, ⟨v, e.2.nxt⟩) else e)

/-- Write the next pointer stored at an address. -/
def setNextH (heap : List (Nat × QNode)) (a : Nat) (nx : Option Nat) :
    List (Nat × QNode) :=
  heap.map (fun e => if e.1 == a then (e.1, ⟨e.2.val, nx⟩) else e)

/-- The removal splice of the vitals walk (triage.c): if (prev)
prev->next = curr->next; else head = curr->next.  prev is whatever the
walk variable holds — the C code does not re-derive the true predecessor,
so the splice can bypass a node inserted between prev and curr. -/
def spliceOut (q : EmergencyQueue) (prev : Option Nat) (nxt : Option Nat) :
    EmergencyQueue :=
  match prev with
  | some pa => { q with heap := setNextH q.heap pa nxt }
  | none => { q with head := nxt }

/-- The position walk of insert_emergency_sorted at the pointer level:
starting from the head slot, advance to the next-slot of each node until
the new patient goes before the slot's target (emergencyGoesBefore) or the
chain ends; none is the head slot, some a the next-slot of node a.  fuel
only bounds the pointer chase so the definition is executable; every
evaluation below uses fuel larger than the chain. -/
def insertSlotGo (heap : List (Nat × QNode)) (p : TriagePatient) :
    Nat → Option Nat → Option Nat → Option Nat
  | 0, slot, _ => slot
  | _ + 1, slot, none => slot
  | fuel + 1, slot, some b =>
    match lookupNode heap b with
    | none => slot
    | some nb =>
      if emergencyGoesBefore p nb.val then slot
      else insertSlotGo heap p fuel (some b) nb.nxt

/-- insert_emergency_sorted (triage.c) on the heap: find the sorted slot
for the node at address a, set a.next to the slot target, redirect the
slot to a, and increment count. -/
def insert_emergency_sorted_heap (fuel : Nat) (q : EmergencyQueue) (a : Nat) :
    EmergencyQueue :=
  match lookupNode q.heap a with
  | none => q
  | some na =>
    match insertSlotGo q.heap na.val fuel none q.head with
    | none =>
      { heap := setNextH q.heap a q.head, head := some a, count := q.count + 1 }
    | some b =>
      let tgt := (lookupNode q.heap b).bind QNode.nxt
      { heap := setNextH (setNextH q.heap a tgt) b (some a)
      , head := q.head, count := q.count + 1 }

/-- The emergency-queue pass of vital_stability_monitor (triage.c), at the
pointer level the C loop actually runs: curr and prev are node addresses;
each visited patient is decremented in place; a patient at or below 0 is
spliced out through prev (stale or not), freed and collected in died; a
not-yet-critical patient at or below the threshold is flagged, spliced out
through prev, and re-inserted by insert_emergency_sorted — with prev left
untouched, exactly as in the source, so a later removal through the stale
prev can unlink the re-inserted node as well.  Dereferencing a freed
address (undefined behavior in C) stops the walk; fuel bounds the walk
only and exceeds the chain length in every evaluation below. -/
def vitalEmergencyWalk (crit : Int) :
    Nat → Option Nat → Option Nat → EmergencyQueue → List TriagePatient →
    EmergencyQueue × List TriagePatient
  | 0, _, _, q, died => (q, died)
  | _ + 1, none, _, q, died => (q, died)
  | fuel + 1, some ca, prev, q, died =>
    match lookupNode q.heap ca with
    | none => (q, died)
    | some node =>
      let p1 := { node.val with stability := node.val.stability - 1 }
      let q1 : EmergencyQueue := { q with heap := setValH q.heap ca p1 }
      if p1.stability ≤ 0 then
        let q2 := spliceOut q1 prev node.nxt
        let q3 : EmergencyQueue :=
          { heap := q2.heap.filter (fun e => e.1 != ca)
          , head := q2.head, count := q2.count - 1 }
        vitalEmergencyWalk crit fuel node.nxt prev q3 (died ++ [p1])
      else if ¬ node.val.is_critical ∧ p1.stability ≤ crit then
        let q2 : EmergencyQueue :=
          { q1 with heap := setValH q1.heap ca { p1 with is_critical := true } }
        let q3 := spliceOut q2 prev node.nxt
        let q4 : EmergencyQueue := { q3 with count := q3.count - 1 }
        let q5 := insert_emergency_sorted_heap fuel q4 ca
        vitalEmergencyWalk crit fuel node.nxt prev q5 died
      else
        vitalEmergencyWalk crit fuel node.nxt (some ca) q1 died

/-- One emergency pass of vital_stability_monitor: the walk starts at the
head with prev = NULL. -/
def vital_emergency_pass (crit : Int) (fuel : Nat) (q : EmergencyQueue) :
    EmergencyQueue × List TriagePatient :=
  vitalEmergencyWalk crit fuel q.head none q []

/-- Read the queue contents by chasing head links (what any reader of the
queue observes). -/
def chainToList (fuel : Nat) (heap : List (Nat × QNode)) :
    Option Nat → List TriagePatient
  | none => []
  | some a =>
    match fuel with
    | 0 => []
    | fuel + 1 =>
      match lookupNode heap a with
      | none => []
      | some n => n.val :: chainToList fuel heap n.nxt

/-- The appointment-queue pass of vital_stability_monitor: no decrement;
a patient whose stability is at or below the critical threshold is taken
out, flagged critical, converted to the emergency type and transferred. -/
def vitalAppointmentScan (crit : Int) :
    List TriagePatient → List TriagePatient × List TriagePatient
  | [] => ([], [])
  | p :: rest =>
    let (stay, moved) := vitalAppointmentScan crit rest
    if p.stability ≤ crit then
      (stay, { p with is_critical := true, ptype := 1 } :: moved)
    else
      (p :: stay, moved)

/-- The transferred form of a critical appointment patient. -/
def markTransferred (p : TriagePatient) : TriagePatient :=
  { p with is_critical := true, ptype := 1 }

/-- The patient record constructed by appointment_queue_manager (triage.c)
for an admitted MSG_NEW_APPOINTMENT message: priority is the constant 5,
stability the constant 1000, meds empty, not critical. -/
def admit_appointment (msg : NewAppointmentMsg) (now : Int) : TriagePatient :=
  { id := msg.patient_id
  , ptype := 2
  , priority := 5
  , stability := 1000
  , arrival_time := now
  , scheduled_time := msg.scheduled_time
  , is_critical := false
  , tests_id := msg.tests_id
  , meds_id := []
  , doctor_specialty := msg.doctor_specialty }

-- ===========================================================================
-- Pharmacy stock protocol (pharmacy.c)
-- ===========================================================================

/-- Phase of one pharmacy worker for a single medication cell: before the
availability check, after a passed check, holding a reservation, finished
(dispensed or released), or failed the check. -/
inductive WPhase where
  | ready
  | checked
  | holding
  | finishedW
  | failedW
deriving DecidableEq

/-- State of one medication cell together with the phases of the workers
that reference it: current_stock, reserved, and one phase per worker. -/
structure CellState where
  stock : Int
  rsv : Int
  pcs : List WPhase
deriving DecidableEq

/-- Interleaved steps of pharmacy workers on one medication cell, each step
one critical section under the per-cell mutex, as in pharmacy.c.  Worker i
requests quantity qs[i].  check and checkFail are one iteration of
check_stock_availability (available = current_stock - reserved compared to
the quantity); reserve is reserve_stock; dispense is dispense_medications
with a non-negative auto-restock credit r; releaseRes is
release_reservation on the failure paths after a reservation. -/
inductive PharmStep (qs : List Int) : CellState → CellState → Prop where
  | check {s : CellState} {i : Nat} {q : Int}
      (hq : qs.get? i = some q) (hp : s.pcs.get? i = some .ready)
      (hav : q ≤ s.stock - s.rsv) :
      PharmStep qs s ⟨s.stock, s.rsv, s.pcs.set i .checked⟩
  | checkFail {s : CellState} {i : Nat} {q : Int}
      (hq : qs.get? i = some q) (hp : s.pcs.get? i = some .ready)
      (hav : s.stock - s.rsv < q) :
      PharmStep qs s ⟨s.stock, s.rsv, s.pcs.set i .failedW⟩
  | reserve {s : CellState} {i : Nat} {q : Int}
      (hq : qs.get? i = some q) (hp : s.pcs.get? i = some .checked) :
      PharmStep qs s ⟨s.stock, s.rsv + q, s.pcs.set i .holding⟩
  | dispense {s : CellState} {i : Nat} {q r : Int}
      (hq : qs.get? i = some q) (hp : s.pcs.get? i = some .holding)
      (hr : 0 ≤ r) :
      PharmStep qs s ⟨s.stock - q + r, s.rsv - q, s.pcs.set i .finishedW⟩
  | releaseRes {s : CellState} {i : Nat} {q : Int}
      (hq : qs.get? i = some q) (hp : s.pcs.get? i = some .holding) :
      PharmStep qs s ⟨s.stock, s.rsv - q, s.pcs.set i .finishedW⟩

/-- Reachability under interleaved pharmacy-worker steps. -/
inductive PharmReach (qs : List Int) (s0 : CellState) : CellState → Prop where
  | refl : PharmReach qs s0 s0
  | tail {s t : CellState} :
      PharmReach qs s0 s → PharmStep qs s t → PharmReach qs s0 t

/-- Serialized variant: the availability check and the reservation of one
worker execute as a single atomic step (no other worker between them). -/
inductive SerialStep (qs : List Int) : CellState → CellState → Prop where
  | checkReserve {s : CellState} {i : Nat} {q : Int}
      (hq : qs.get? i = some q) (hp : s.pcs.get? i = some .ready)
      (hav : q ≤ s.stock - s.rsv) :
      SerialStep qs s ⟨s.stock, s.rsv + q, s.pcs.set i .holding⟩
  | checkFail {s : CellState} {i : Nat} {q : Int}
      (hq : qs.get? i = some q) (hp : s.pcs.get? i = some .ready)
      (hav : s.stock - s.rsv < q) :
      SerialStep qs s ⟨s.stock, s.rsv, s.pcs.set i .failedW⟩
  | dispense {s : CellState} {i : Nat} {q r : Int}
      (hq : qs.get? i = some q) (hp : s.pcs.get? i = some .holding)
      (hr : 0 ≤ r) :
      SerialStep qs s ⟨s.stock - q + r, s.rsv - q, s.pcs.set i .finishedW⟩
  | releaseRes {s : CellState} {i : Nat} {q : Int}
      (hq : qs.get? i = some q) (hp : s.pcs.get? i = some .holding) :
      SerialStep qs s ⟨s.stock, s.rsv - q, s.pcs.set i .finishedW⟩

/-- Reachability under serialized steps. -/
inductive SerialReach (qs : List Int) (s0 : CellState) : CellState → Prop where
  | refl : SerialReach qs s0 s0
  | tail {s t : CellState} :
      SerialReach qs s0 s → SerialStep qs s t → SerialReach qs s0 t

/-- Sum of the quantities of workers currently holding a reservation. -/
def inflightSum : List Int → List WPhase → Int
  | q :: qs, ph :: phs =>
    (if ph = WPhase.holding then q else 0) + inflightSum qs phs
  | _, _ => 0

/-- The clean initial state of a cell: initial stock, nothing reserved,
every worker before its check. -/
def initCell (stock : Int) (n : Nat) : CellState :=
  ⟨stock, 0, List.replicate n .ready⟩

-- ===========================================================================
-- Pharmacy dispatcher counters (pharmacy.c process_pharmacy_requests)
-- ===========================================================================

/-- The three request counters of the statistics record touched by the
pharmacy dispatcher. -/
structure PharmacyStats where
  total_pharmacy_requests : Nat
  urgent_requests : Nat
  normal_requests : Nat
deriving DecidableEq

/-- Counter effect of one message consumed by process_pharmacy_requests:
records whose kind is not MSG_PHARMACY_REQUEST are skipped before any
counting; otherwise total is incremented and the record is bucketed as
urgent exactly when its mtype is PRIORITY_URGENT, as normal otherwise. -/
def process_pharmacy_request_step (st : PharmacyStats) (m : Msg) :
    PharmacyStats :=
  if m.kind ≠ MSG_PHARMACY_REQUEST then st
  else
    { total_pharmacy_requests := st.total_pharmacy_requests + 1
    , urgent_requests :=
        if m.mtype = PRIORITY_URGENT then st.urgent_requests + 1
        else st.urgent_requests
    , normal_requests :=
        if m.mtype = PRIORITY_URGENT then st.normal_requests
        else st.normal_requests + 1 }

/-- The zeroed statistics counters at startup. -/
def initPharmacyStats : PharmacyStats := ⟨0, 0, 0⟩

-- ===========================================================================
-- Lab PREOP worker (lab.c execute_preop_test)
-- ===========================================================================

/-- Observable events of a lab worker: bench acquisition and release (1 for
Lab1, 2 for Lab2), simulated waiting, and the total_preop_tests increment. -/
inductive LabEvent where
  | acq : Nat → LabEvent
  | rel : Nat → LabEvent
  | waitU : Nat → LabEvent
  | incPreop : LabEvent
deriving DecidableEq

/-- get_preop_duration from lab.c: 20 + rand() % 21, so a total in 20..40. -/
def get_preop_duration (r : Nat) : Nat := 20 + r % 21

/-- Environment of one execute_preop_test run: whether each semaphore
acquisition fails and what each lab_should_shutdown poll returns. -/
structure PreopEnv where
  acq1Fails : Bool
  sdAfterA1 : Bool
  sdAfterRel1 : Bool
  acq2Fails : Bool
  sdAfterA2 : Bool
deriving DecidableEq

/-- execute_preop_test from lab.c as an event trace with its return value:
half the total on Lab1 (acquire, wait, release), then — only after Lab1 is
released — the remaining half on Lab2, with total_preop_tests incremented
under the statistics lock before Lab2 is released.  Every early-exit path
releases whatever bench is held and skips the increment. -/
def execute_preop_test (total : Nat) (env : PreopEnv) : List LabEvent × Int :=
  let phase1 := total / 2
  let phase2 := total - phase1
  if env.acq1Fails then ([], -1)
  else if env.sdAfterA1 then ([.acq 1, .rel 1], -1)
  else
    let t1 : List LabEvent := [.acq 1, .waitU phase1, .rel 1]
    if env.sdAfterRel1 then (t1, -1)
    else if env.acq2Fails then (t1, -1)
    else if env.sdAfterA2 then (t1 ++ [.acq 2, .rel 2], -1)
    else (t1 ++ [.acq 2, .waitU phase2, .incPreop, .rel 2], 0)

/-- Net hold count of a bench after a trace (acquisitions minus releases). -/
def heldAfter (tr : List LabEvent) (lab : Nat) : Int :=
  tr.foldl
    (fun a e =>
      match e with
      | .acq l => if l = lab then a + 1 else a
      | .rel l => if l = lab then a - 1 else a
      | _ => a) 0

/-- True when some prefix of the trace holds Lab1 and Lab2 simultaneously. -/
def bothHeldSomewhere (tr : List LabEvent) : Bool :=
  (List.range (tr.length + 1)).any
    (fun k => decide (0 < heldAfter (tr.take k) 1) &&
              decide (0 < heldAfter (tr.take k) 2))

/-- True when every Lab2 acquisition in the trace comes after some Lab1
release. -/
def acq2OnlyAfterRel1 (tr : List LabEvent) : Bool :=
  (tr.foldl
    (fun st e =>
      match e with
      | .rel 1 => (true, st.2)
      | .acq 2 => (st.1, st.2 && st.1)
      | _ => st)
    ((false, true) : Bool × Bool)).2

/-- Number of total_preop_tests increments in a trace. -/
def countIncPreop (tr : List LabEvent) : Nat :=
  tr.countP (fun e => match e with | .incPreop => true | _ => false)

-- ===========================================================================
-- Theorems
-- ===========================================================================

/-- C1: the claim asserts a fresh, monotonically increasing surgery_id
(counter from 1) per admitted NewSurgery.  In the code, handle_command
zeroes the message header and never assigns hdr.operation_id, and
spawn_surgery_worker copies surgery_id from hdr.operation_id, so two
distinct admitted surgeries both receive surgery_id 0: the later admission
is not strictly greater, and two simultaneously registered surgeries share
an id. -/
theorem surgery_ids_all_zero :
    ∃ m1 m2 : NewSurgeryMsg,
      handle_surgery_command ["ANALGESICO_A"]
        ["PAC00001", "init:", "0", "type:", "CARDIO", "scheduled:", "0",
         "urgency:", "HIGH", "tests:", "[PREOP]", "meds:", "[ANALGESICO_A]"] 0 =
        CmdOutcome.sentNow m1 ∧
      handle_surgery_command ["ANALGESICO_A"]
        ["PAC00002", "init:", "0", "type:", "ORTHO", "scheduled:", "0",
         "urgency:", "LOW", "tests:", "[PREOP]", "meds:", "[ANALGESICO_A]"] 0 =
        CmdOutcome.sentNow m2 ∧
      m1.patient_id ≠ m2.patient_id ∧
      (spawn_surgery_worker m1).surgery_id = 0 ∧
      (spawn_surgery_worker m2).surgery_id = 0 ∧
      ¬ (spawn_surgery_worker m1).surgery_id < (spawn_surgery_worker m2).surgery_id := by
  refine
    ⟨{ mtype := 1, kind := MSG_NEW_SURGERY, patient_id := "PAC00001"
     , operation_id := 0, timestamp := 0, estimated_duration := 0
     , scheduled_time := 0, surgery_type := 0, urgency := 2
     , tests_id := [5], meds_id := [0] },
     { mtype := 1, kind := MSG_NEW_SURGERY, patient_id := "PAC00002"
     , operation_id := 0, timestamp := 0, estimated_duration := 0
     , scheduled_time := 0, surgery_type := 1, urgency := 0
     , tests_id := [5], meds_id := [0] },
     by decide, by decide, by decide, by decide, by decide, by decide⟩

/-- Helper for C1: every surgery record admitted by the SURGERY branch
carries operation_id 0, for any catalog, token list and tick — the branch
has no counter at all. -/
theorem surgery_operation_id_always_zero (catalog : List String)
    (args : List String) (t : Int) (m : NewSurgeryMsg)
    (h : handle_surgery_command catalog args t = CmdOutcome.sentNow m ∨
         ∃ due, handle_surgery_command catalog args t = CmdOutcome.scheduled due m) :
    m.operation_id = 0 := by
  unfold handle_surgery_command at h
  rcases args with _ | ⟨code, rest⟩
  · rcases h with h | ⟨due, h⟩ <;> simp at h
  · rcases h with h | ⟨due, h⟩
    · simp only at h
      split_ifs at h
      all_goals simp_all
      subst h
      rfl
    · simp only at h
      split_ifs at h
      all_goals simp_all
      obtain ⟨h1, h2⟩ := h
      subst h2
      rfl

/-- C4: kind-specific intake.  handle_command builds NewAppointment records
with mtype 1, which equals MSG_NEW_EMERGENCY, while the triage intakes
filter the shared mailbox by mtype (receive_specific_message with
MSG_NEW_EMERGENCY resp. MSG_NEW_APPOINTMENT).  Hence the Emergency intake
consumes the NewAppointment record and the Appointment intake can never
receive it, contradicting the claim that each intake receives only records
of its own kind and leaves the other kind queued. -/
theorem appointment_consumed_by_emergency_intake :
    handle_appointment_command
        ["PAC00001", "init:", "0", "scheduled:", "5", "doctor:", "CARDIO"] 0 =
      CmdOutcome.sentNow
        { mtype := 1, kind := MSG_NEW_APPOINTMENT, patient_id := "PAC00001"
        , operation_id := 0, timestamp := 0, scheduled_time := 5
        , doctor_specialty := 0, tests_id := [] } ∧
    MSG_NEW_EMERGENCY = 1 ∧
    receive_specific_message [⟨1, MSG_NEW_APPOINTMENT⟩] MSG_NEW_EMERGENCY =
      some (⟨1, MSG_NEW_APPOINTMENT⟩, []) ∧
    receive_specific_message [⟨1, MSG_NEW_APPOINTMENT⟩] MSG_NEW_APPOINTMENT =
      none := by
  refine ⟨by decide, rfl, by decide, by decide⟩

/-- C5: lab-selector compatibility is not checked at translation.  A
LAB_REQUEST with selector LAB1 and test COLEST (a Lab2-only test by
get_target_lab) passes validation and is sent to the Lab mailbox, where
the claim requires a validation error and no record. -/
theorem lab_request_compat_not_enforced :
    handle_lab_command
        ["PAC12345", "init:", "0", "priority:", "NORMAL", "lab:", "LAB1",
         "tests:", "[COLEST]"] 0 =
      CmdOutcome.sentNow
        { mtype := PRIORITY_NORMAL, kind := MSG_LAB_REQUEST
        , patient_id := "PAC12345", operation_id := 0, timestamp := 0
        , tests_id := [2] } ∧
    get_test_id "COLEST" = 2 ∧
    get_target_lab 2 = 2 := by
  refine ⟨by decide, by decide, by decide⟩

/-- C6: validate_id does implement the role-specific REQ and LAB headers the
claim describes, but handle_command validates the id of every command with
validate_patient_id (PAC only): the pharmacy and lab branches reject
REQ- and LAB-headed ids and accept PAC-headed ones instead. -/
theorem id_prefix_validation_divergence :
    validate_id "REQ12345" IdType.pharmacy = true ∧
    validate_id "LAB12345" IdType.lab = true ∧
    handle_pharmacy_command ["ANALGESICO_A"]
        ["REQ12345", "init:", "0", "priority:", "NORMAL", "items:",
         "[ANALGESICO_A:1]"] 0 = CmdOutcome.rejected ∧
    handle_lab_command
        ["LAB12345", "init:", "0", "priority:", "NORMAL", "lab:", "BOTH",
         "tests:", "[HEMO]"] 0 = CmdOutcome.rejected ∧
    handle_pharmacy_command ["ANALGESICO_A"]
        ["PAC12345", "init:", "0", "priority:", "NORMAL", "items:",
         "[ANALGESICO_A:1]"] 0 =
      CmdOutcome.sentNow
        { mtype := PRIORITY_NORMAL, kind := MSG_PHARMACY_REQUEST
        , patient_id := "PAC12345", operation_id := 0, timestamp := 0
        , items := [(0, 1)] } := by
  refine ⟨by decide, by decide, by decide, by decide, by decide⟩

/-- C2 counterexample: the Surgery dispatcher receives with
max_priority_type 0 (msgtyp 0), which is plain FIFO: a PRIORITY_NORMAL
record at the head is delivered while a PRIORITY_URGENT record is queued
behind it. -/
theorem surgery_receive_fifo_counterexample :
    surgery_dispatcher_receive
        [⟨PRIORITY_NORMAL, MSG_PHARM_READY⟩, ⟨PRIORITY_URGENT, MSG_NEW_SURGERY⟩] =
      some (⟨PRIORITY_NORMAL, MSG_PHARM_READY⟩,
            [⟨PRIORITY_URGENT, MSG_NEW_SURGERY⟩]) ∧
    PRIORITY_URGENT < PRIORITY_NORMAL := by
  refine ⟨by decide, by decide⟩

/-- C9: appointment_queue_manager stores every admitted appointment with
stability 1000 and priority 5, whatever the command carried, and the
vitals monitor transfers such a patient to the emergency queue exactly
when the configured critical threshold reaches 1000. -/
theorem appointment_fixed_stability_priority (msg : NewAppointmentMsg)
    (now crit : Int) :
    (admit_appointment msg now).stability = 1000 ∧
    (admit_appointment msg now).priority = 5 ∧
    ((vitalAppointmentScan crit [admit_appointment msg now]).2 ≠ [] ↔
      1000 ≤ crit) := by
  refine ⟨rfl, rfl, ?_⟩
  by_cases h : (1000 : Int) ≤ crit <;>
    simp [vitalAppointmentScan, admit_appointment, h]

/-- No record of a queue is eligible when bestElig finds none. -/
theorem bestElig_none {bound : Nat} :
    ∀ {q : List Msg}, bestElig bound q = none →
      ∀ x ∈ q, ¬ x.mtype ≤ bound := by
  intro q
  induction q with
  | nil => intro _ x hx; cases hx
  | cons m rest ih =>
    intro h x hx
    cases hrest : bestElig bound rest with
    | none =>
      simp only [bestElig, hrest] at h
      split_ifs at h with hm
      rcases List.mem_cons.mp hx with hx | hx
      · subst hx; exact hm
      · exact ih hrest x hx
    | some b =>
      simp only [bestElig, hrest] at h
      split_ifs at h

/-- The record bestElig picks is in the queue and is eligible. -/
theorem bestElig_mem_le {bound : Nat} :
    ∀ {q : List Msg} {b : Msg}, bestElig bound q = some b →
      b ∈ q ∧ b.mtype ≤ bound := by
  intro q
  induction q with
  | nil => intro b h; simp [bestElig] at h
  | cons m rest ih =>
    intro b h
    cases hrest : bestElig bound rest with
    | none =>
      simp only [bestElig, hrest] at h
      split_ifs at h with hm
      cases h
      exact ⟨List.mem_cons_self _ _, hm⟩
    | some br =>
      simp only [bestElig, hrest] at h
      split_ifs at h with hc
      · cases h; exact ⟨List.mem_cons_self _ _, hc.1⟩
      · cases h
        rcases ih hrest with ⟨hmem, hle⟩
        exact ⟨List.mem_cons_of_mem _ hmem, hle⟩

/-- The record bestElig picks has the least mtype among eligible records. -/
theorem bestElig_min {bound : Nat} :
    ∀ {q : List Msg} {b : Msg}, bestElig bound q = some b →
      ∀ x ∈ q, x.mtype ≤ bound → b.mtype ≤ x.mtype := by
  intro q
  induction q with
  | nil => intro b h; simp [bestElig] at h
  | cons m rest ih =>
    intro b h x hx hxb
    cases hrest : bestElig bound rest with
    | none =>
      simp only [bestElig, hrest] at h
      split_ifs at h with hm
      cases h
      rcases List.mem_cons.mp hx with hx | hx
      · subst hx; exact le_refl _
      · exact absurd hxb (bestElig_none hrest x hx)
    | some br =>
      simp only [bestElig, hrest] at h
      split_ifs at h with hc
      · cases h
        rcases List.mem_cons.mp hx with hx | hx
        · subst hx; exact le_refl _
        · exact le_trans hc.2 (ih hrest x hx hxb)
      · cases h
        rcases List.mem_cons.mp hx with hx | hx
        · subst hx
          rcases Decidable.not_and_iff_or_not.mp hc with hc1 | hc2
          · exact absurd hxb hc1
          · exact le_of_not_le hc2
        · exact ih hrest x hx hxb

/-- The record bestElig picks is the first of its mtype in the queue
(FIFO within one priority). -/
theorem bestElig_first {bound : Nat} :
    ∀ {q : List Msg} {b : Msg}, bestElig bound q = some b →
      q.find? (fun x => x.mtype == b.mtype) = some b := by
  intro q
  induction q with
  | nil => intro b h; simp [bestElig] at h
  | cons m rest ih =>
    intro b h
    cases hrest : bestElig bound rest with
    | none =>
      simp only [bestElig, hrest] at h
      split_ifs at h with hm
      cases h
      simp [List.find?]
    | some br =>
      simp only [bestElig, hrest] at h
      split_ifs at h with hc
      · cases h; simp [List.find?]
      · cases h
        have hne : m.mtype ≠ b.mtype := by
          intro heq
          rcases bestElig_mem_le hrest with ⟨_, hble⟩
          exact hc ⟨heq ▸ hble, le_of_eq heq⟩
        have hbeq : (m.mtype == b.mtype) = false := by
          simpa using hne
        simp only [List.find?, hbeq]
        exact ih hrest

/-- C2 (amended): for every receive through receive_generic_message with a
positive max_priority_type — as the Pharmacy and Lab dispatchers perform —
the delivered record is a queued record with mtype at most the bound, no
eligible queued record has a smaller mtype (no lower-priority record is
delivered while a higher-priority one is queued), and it is the first
queued record of its own mtype (FIFO within one priority).  The Surgery
dispatcher is the exception the counterexample shows: it passes
max_priority_type 0, giving plain FIFO over all mtypes. -/
theorem receive_priority_order (q q' : List Msg) (m : Msg) (bound : Nat)
    (hb : 1 ≤ bound)
    (h : receive_generic_message q bound = some (m, q')) :
    m ∈ q ∧ m.mtype ≤ bound ∧
    (∀ x ∈ q, x.mtype ≤ bound → m.mtype ≤ x.mtype) ∧
    q.find? (fun x => x.mtype == m.mtype) = some m := by
  have hb0 : bound ≠ 0 := by omega
  unfold receive_generic_message at h
  rw [if_neg hb0] at h
  unfold msgrcvUpTo at h
  cases hbe : bestElig bound q with
  | none => rw [hbe] at h; cases h
  | some b =>
    rw [hbe] at h
    cases h
    rcases bestElig_mem_le hbe with ⟨hmem, hle⟩
    exact ⟨hmem, hle, bestElig_min hbe, bestElig_first hbe⟩

/-- Witness for receive_priority_order at the pharmacy dispatcher's bound 3
on a queue holding a high-priority record before an urgent one. -/
theorem receive_priority_order_witness :
    (⟨1, 9⟩ : Msg) ∈ [(⟨2, 7⟩ : Msg), ⟨1, 9⟩] ∧
    (⟨1, 9⟩ : Msg).mtype ≤ 3 ∧
    (∀ x ∈ [(⟨2, 7⟩ : Msg), ⟨1, 9⟩], x.mtype ≤ 3 →
      (⟨1, 9⟩ : Msg).mtype ≤ x.mtype) ∧
    [(⟨2, 7⟩ : Msg), ⟨1, 9⟩].find?
      (fun x => x.mtype == (⟨1, 9⟩ : Msg).mtype) = some ⟨1, 9⟩ :=
  receive_priority_order [⟨2, 7⟩, ⟨1, 9⟩] [⟨2, 7⟩] ⟨1, 9⟩ 3
    (by decide) (by decide)

/-- The three pharmacy counters stay balanced through any fold of consumed
messages, starting from balanced counters. -/
theorem pharm_counters_balanced (msgs : List Msg) :
    ∀ st : PharmacyStats,
      st.urgent_requests + st.normal_requests = st.total_pharmacy_requests →
      (msgs.foldl process_pharmacy_request_step st).urgent_requests +
        (msgs.foldl process_pharmacy_request_step st).normal_requests =
        (msgs.foldl process_pharmacy_request_step st).total_pharmacy_requests := by
  induction msgs with
  | nil => intro st h; exact h
  | cons m ms ih =>
    intro st h
    apply ih
    by_cases hk : m.kind ≠ MSG_PHARMACY_REQUEST
    · simpa [process_pharmacy_request_step, hk] using h
    · by_cases hu : m.mtype = PRIORITY_URGENT <;>
        · simp [process_pharmacy_request_step, hk, hu]
          omega

/-- C10: one consumed pharmacy request increments total_pharmacy_requests
by one and exactly one of urgent_requests (mtype PRIORITY_URGENT) or
normal_requests (any other mtype, PRIORITY_HIGH included); consequently
urgent_requests + normal_requests always equals total_pharmacy_requests
over any consumed message sequence from the zeroed counters. -/
theorem pharmacy_request_counting (st : PharmacyStats) (m : Msg)
    (hk : m.kind = MSG_PHARMACY_REQUEST) :
    (process_pharmacy_request_step st m).total_pharmacy_requests =
      st.total_pharmacy_requests + 1 ∧
    ((m.mtype = PRIORITY_URGENT ∧
      (process_pharmacy_request_step st m).urgent_requests =
        st.urgent_requests + 1 ∧
      (process_pharmacy_request_step st m).normal_requests =
        st.normal_requests) ∨
     (m.mtype ≠ PRIORITY_URGENT ∧
      (process_pharmacy_request_step st m).normal_requests =
        st.normal_requests + 1 ∧
      (process_pharmacy_request_step st m).urgent_requests =
        st.urgent_requests)) ∧
    (∀ msgs : List Msg,
      (msgs.foldl process_pharmacy_request_step initPharmacyStats).urgent_requests +
        (msgs.foldl process_pharmacy_request_step initPharmacyStats).normal_requests =
        (msgs.foldl process_pharmacy_request_step initPharmacyStats).total_pharmacy_requests) := by
  refine ⟨?_, ?_, ?_⟩
  · simp [process_pharmacy_request_step, hk]
  · by_cases hu : m.mtype = PRIORITY_URGENT
    · exact Or.inl ⟨hu, by simp [process_pharmacy_request_step, hk, hu]⟩
    · exact Or.inr ⟨hu, by simp [process_pharmacy_request_step, hk, hu]⟩
  · intro msgs
    exact pharm_counters_balanced msgs initPharmacyStats rfl

/-- Witness for pharmacy_request_counting: an urgent pharmacy request
consumed on the zeroed counters. -/
theorem pharmacy_request_counting_witness :
    (process_pharmacy_request_step initPharmacyStats
        ⟨PRIORITY_URGENT, MSG_PHARMACY_REQUEST⟩).total_pharmacy_requests =
      initPharmacyStats.total_pharmacy_requests + 1 ∧
    (((⟨PRIORITY_URGENT, MSG_PHARMACY_REQUEST⟩ : Msg).mtype = PRIORITY_URGENT ∧
      (process_pharmacy_request_step initPharmacyStats
          ⟨PRIORITY_URGENT, MSG_PHARMACY_REQUEST⟩).urgent_requests =
        initPharmacyStats.urgent_requests + 1 ∧
      (process_pharmacy_request_step initPharmacyStats
          ⟨PRIORITY_URGENT, MSG_PHARMACY_REQUEST⟩).normal_requests =
        initPharmacyStats.normal_requests) ∨
     ((⟨PRIORITY_URGENT, MSG_PHARMACY_REQUEST⟩ : Msg).mtype ≠ PRIORITY_URGENT ∧
      (process_pharmacy_request_step initPharmacyStats
          ⟨PRIORITY_URGENT, MSG_PHARMACY_REQUEST⟩).normal_requests =
        initPharmacyStats.normal_requests + 1 ∧
      (process_pharmacy_request_step initPharmacyStats
          ⟨PRIORITY_URGENT, MSG_PHARMACY_REQUEST⟩).urgent_requests =
        initPharmacyStats.urgent_requests)) ∧
    (∀ msgs : List Msg,
      (msgs.foldl process_pharmacy_request_step initPharmacyStats).urgent_requests +
        (msgs.foldl process_pharmacy_request_step initPharmacyStats).normal_requests =
        (msgs.foldl process_pharmacy_request_step initPharmacyStats).total_pharmacy_requests) :=
  pharmacy_request_counting initPharmacyStats
    ⟨PRIORITY_URGENT, MSG_PHARMACY_REQUEST⟩ rfl

/-- C8: for every PREOP execution the sampled total lies in 20..40 and the
two phases split it exactly (floor half on Lab1, remainder on Lab2); under
every environment (acquisition failures and shutdown polls) no prefix of
the event trace ever holds Lab1 and Lab2 together, Lab2 is only acquired
after a Lab1 release, and total_preop_tests is incremented exactly once
when the run completes and never otherwise; the uninterrupted run is
exactly acquire-Lab1, wait, release-Lab1, acquire-Lab2, wait, increment,
release-Lab2. -/
theorem preop_two_phase_spec (r : Nat) (env : PreopEnv) :
    20 ≤ get_preop_duration r ∧ get_preop_duration r ≤ 40 ∧
    get_preop_duration r / 2 + (get_preop_duration r - get_preop_duration r / 2) =
      get_preop_duration r ∧
    bothHeldSomewhere (execute_preop_test (get_preop_duration r) env).1 = false ∧
    acq2OnlyAfterRel1 (execute_preop_test (get_preop_duration r) env).1 = true ∧
    countIncPreop (execute_preop_test (get_preop_duration r) env).1 =
      (if (execute_preop_test (get_preop_duration r) env).2 = 0 then 1 else 0) ∧
    (execute_preop_test (get_preop_duration r) ⟨false, false, false, false, false⟩).1 =
      [.acq 1, .waitU (get_preop_duration r / 2), .rel 1, .acq 2,
       .waitU (get_preop_duration r - get_preop_duration r / 2), .incPreop, .rel 2] ∧
    (execute_preop_test (get_preop_duration r) ⟨false, false, false, false, false⟩).2 = 0 := by
  obtain ⟨a, b, c, d, e⟩ := env
  refine ⟨?_, ?_, ?_, ?_, ?_, ?_, rfl, rfl⟩
  · simp [get_preop_duration]
  · have : r % 21 < 21 := Nat.mod_lt _ (by omega)
    simp [get_preop_duration]; omega
  · omega
  · cases a <;> cases b <;> cases c <;> cases d <;> cases e <;> rfl
  · cases a <;> cases b <;> cases c <;> cases d <;> cases e <;> rfl
  · cases a <;> cases b <;> cases c <;> cases d <;> cases e <;> rfl

/-- C3 counterexample: with two workers each requesting one unit from a cell
holding one unit, the interleaving check-check-reserve-reserve — possible
because check_stock_availability and reserve_stock take the per-cell lock
separately and up to four workers sit inside the pharmacy counter
semaphore — reaches a state with reserved = 2 above current_stock = 1. -/
theorem reserved_exceeds_stock_counterexample :
    PharmReach [1, 1] (initCell 1 2) ⟨1, 2, [.holding, .holding]⟩ ∧
    (⟨1, 2, [.holding, .holding]⟩ : CellState).stock <
      (⟨1, 2, [.holding, .holding]⟩ : CellState).rsv := by
  constructor
  · have h1 : PharmStep [1, 1] (initCell 1 2) ⟨1, 0, [.checked, .ready]⟩ :=
      PharmStep.check (i := 0) (q := 1) rfl rfl (by decide)
    have h2 : PharmStep [1, 1] (⟨1, 0, [.checked, .ready]⟩ : CellState)
        ⟨1, 0, [.checked, .checked]⟩ :=
      PharmStep.check (i := 1) (q := 1) rfl rfl (by decide)
    have h3 : PharmStep [1, 1] (⟨1, 0, [.checked, .checked]⟩ : CellState)
        ⟨1, 1, [.holding, .checked]⟩ :=
      PharmStep.reserve (i := 0) (q := 1) rfl rfl
    have h4 : PharmStep [1, 1] (⟨1, 1, [.holding, .checked]⟩ : CellState)
        ⟨1, 2, [.holding, .holding]⟩ :=
      PharmStep.reserve (i := 1) (q := 1) rfl rfl
    exact PharmReach.tail (PharmReach.tail (PharmReach.tail
      (PharmReach.tail PharmReach.refl h1) h2) h3) h4
  · decide

/-- A cell whose workers are all before their check carries no in-flight
reservation. -/
theorem inflightSum_replicate_ready :
    ∀ (qs : List Int) (n : Nat), inflightSum qs (List.replicate n .ready) = 0 := by
  intro qs
  induction qs with
  | nil => intro n; cases n <;> simp [inflightSum]
  | cons q qs ih =>
    intro n
    cases n with
    | zero => simp [inflightSum]
    | succ k => simp [List.replicate, inflightSum, ih]

/-- In-flight reservations are non-negative for non-negative quantities. -/
theorem inflightSum_nonneg :
    ∀ (qs : List Int) (pcs : List WPhase), (∀ q ∈ qs, 0 ≤ q) →
      0 ≤ inflightSum qs pcs := by
  intro qs
  induction qs with
  | nil => intro pcs _; cases pcs <;> simp [inflightSum]
  | cons q qs ih =>
    intro pcs hq
    cases pcs with
    | nil => simp [inflightSum]
    | cons ph phs =>
      have h1 : 0 ≤ q := hq q (List.mem_cons_self _ _)
      have h2 : 0 ≤ inflightSum qs phs :=
        ih phs (fun x hx => hq x (List.mem_cons_of_mem _ hx))
      simp only [inflightSum]
      split_ifs <;> omega

/-- A cell with no worker holding a reservation has in-flight sum zero. -/
theorem inflightSum_zero_of_no_holding :
    ∀ (qs : List Int) (pcs : List WPhase),
      (∀ ph ∈ pcs, ph ≠ WPhase.holding) → inflightSum qs pcs = 0 := by
  intro qs
  induction qs with
  | nil => intro pcs _; cases pcs <;> simp [inflightSum]
  | cons q qs ih =>
    intro pcs hp
    cases pcs with
    | nil => simp [inflightSum]
    | cons ph phs =>
      have h1 : ph ≠ WPhase.holding := hp ph (List.mem_cons_self _ _)
      have h2 : inflightSum qs phs = 0 :=
        ih phs (fun x hx => hp x (List.mem_cons_of_mem _ hx))
      simp [inflightSum, h1, h2]

/-- Changing one worker's phase changes the in-flight sum by that worker's
quantity, with sign given by entering or leaving the holding phase. -/
theorem inflightSum_set :
    ∀ (pcs : List WPhase) (qs : List Int) (i : Nat) (q : Int) (old new : WPhase),
      qs.get? i = some q → pcs.get? i = some old →
      inflightSum qs (pcs.set i new) =
        inflightSum qs pcs + (if new = WPhase.holding then q else 0) -
          (if old = WPhase.holding then q else 0) := by
  intro pcs
  induction pcs with
  | nil => intro qs i q old new _ hp; simp at hp
  | cons ph phs ih =>
    intro qs i q old new hq hp
    cases qs with
    | nil => simp at hq
    | cons q0 qs' =>
      cases i with
      | zero =>
        simp only [List.get?] at hq hp
        cases hq; cases hp
        simp only [List.set, inflightSum]
        split_ifs <;> omega
      | succ k =>
        simp only [List.get?] at hq hp
        simp only [List.set, inflightSum, ih qs' k q old new hq hp]
        split_ifs <;> omega

/-- Under the code's fine-grained interleaving, reserved always equals the
sum of the quantities of workers that have reserved and not yet committed
or released. -/
theorem pharm_inflight_invariant (qs : List Int) (stock0 : Int) (n : Nat)
    (s : CellState) (h : PharmReach qs (initCell stock0 n) s) :
    s.rsv = inflightSum qs s.pcs := by
  induction h with
  | refl => simp [initCell, inflightSum_replicate_ready]
  | tail hr hstep ih =>
    cases hstep with
    | check hq hp hav =>
      rw [show (inflightSum qs ((_ : CellState).pcs.set _ WPhase.checked)) =
        _ from inflightSum_set _ _ _ _ _ _ hq hp]
      simp [ih]
    | checkFail hq hp hav =>
      rw [show (inflightSum qs ((_ : CellState).pcs.set _ WPhase.failedW)) =
        _ from inflightSum_set _ _ _ _ _ _ hq hp]
      simp [ih]
    | reserve hq hp =>
      rw [show (inflightSum qs ((_ : CellState).pcs.set _ WPhase.holding)) =
        _ from inflightSum_set _ _ _ _ _ _ hq hp]
      simp [ih]
    | dispense hq hp hr =>
      rw [show (inflightSum qs ((_ : CellState).pcs.set _ WPhase.finishedW)) =
        _ from inflightSum_set _ _ _ _ _ _ hq hp]
      simp [ih]
    | releaseRes hq hp =>
      rw [show (inflightSum qs ((_ : CellState).pcs.set _ WPhase.finishedW)) =
        _ from inflightSum_set _ _ _ _ _ _ hq hp]
      simp [ih]

/-- When every worker's check and reservation run as one atomic step, the
cell keeps reserved equal to the in-flight sum and at most current_stock. -/
theorem serial_cell_invariant (qs : List Int) (stock0 : Int) (n : Nat)
    (s : CellState) (hqs : ∀ x ∈ qs, 0 ≤ x) (h0 : 0 ≤ stock0)
    (h : SerialReach qs (initCell stock0 n) s) :
    s.rsv = inflightSum qs s.pcs ∧ s.rsv ≤ s.stock := by
  induction h with
  | refl => exact ⟨by simp [initCell, inflightSum_replicate_ready], by simpa [initCell]⟩
  | tail hr hstep ih =>
    cases hstep with
    | checkReserve hq hp hav =>
      refine ⟨?_, ?_⟩
      · rw [show (inflightSum qs ((_ : CellState).pcs.set _ WPhase.holding)) =
          _ from inflightSum_set _ _ _ _ _ _ hq hp]
        simp [ih.1]
      · dsimp only
        omega
    | checkFail hq hp hav =>
      refine ⟨?_, ?_⟩
      · rw [show (inflightSum qs ((_ : CellState).pcs.set _ WPhase.failedW)) =
          _ from inflightSum_set _ _ _ _ _ _ hq hp]
        simp [ih.1]
      · exact ih.2
    | dispense hq hp hr =>
      refine ⟨?_, ?_⟩
      · rw [show (inflightSum qs ((_ : CellState).pcs.set _ WPhase.finishedW)) =
          _ from inflightSum_set _ _ _ _ _ _ hq hp]
        simp [ih.1]
      · have := ih.2
        dsimp only
        omega
    | releaseRes hq hp =>
      refine ⟨?_, ?_⟩
      · rw [show (inflightSum qs ((_ : CellState).pcs.set _ WPhase.finishedW)) =
          _ from inflightSum_set _ _ _ _ _ _ hq hp]
        simp [ih.1]
      · have h1 := ih.2
        have h2 := hqs _ (List.get?_mem hq)
        dsimp only
        omega

/-- C3 (amended): for a cell starting clean with non-negative stock and
non-negative requested quantities, a serial execution — each worker's
availability check and reservation as one atomic step — keeps
0 ≤ reserved ≤ current_stock; under the code's fine-grained interleaving
reserved still equals the in-flight sum of reserving workers, so it stays
non-negative and returns to 0 once no worker is in flight for the cell —
but reserved ≤ current_stock itself can be violated by interleaved checks,
as the counterexample shows, and current_stock ≤ max_capacity is not
enforced anywhere (RESTOCK and auto-restock add without a cap). -/
theorem pharmacy_reservation_amended (qs : List Int) (stock0 : Int) (n : Nat)
    (s t : CellState)
    (hqs : ∀ x ∈ qs, 0 ≤ x) (h0 : 0 ≤ stock0)
    (hser : SerialReach qs (initCell stock0 n) s)
    (hfine : PharmReach qs (initCell stock0 n) t) :
    (0 ≤ s.rsv ∧ s.rsv ≤ s.stock) ∧
    (t.rsv = inflightSum qs t.pcs ∧ 0 ≤ t.rsv ∧
      ((∀ ph ∈ t.pcs, ph ≠ WPhase.holding) → t.rsv = 0)) := by
  have hs := serial_cell_invariant qs stock0 n s hqs h0 hser
  have ht := pharm_inflight_invariant qs stock0 n t hfine
  refine ⟨⟨?_, hs.2⟩, ht, ?_, ?_⟩
  · rw [hs.1]
    exact inflightSum_nonneg qs s.pcs hqs
  · rw [ht]
    exact inflightSum_nonneg qs t.pcs hqs
  · intro hnone
    rw [ht]
    exact inflightSum_zero_of_no_holding qs t.pcs hnone

/-- Witness for pharmacy_reservation_amended: one worker requesting one
unit from one unit of stock, run serially to completion and, in the
fine-grained machine, through check, reserve and release. -/
theorem pharmacy_reservation_amended_witness :
    (0 ≤ (⟨0, 0, [.finishedW]⟩ : CellState).rsv ∧
     (⟨0, 0, [.finishedW]⟩ : CellState).rsv ≤
       (⟨0, 0, [.finishedW]⟩ : CellState).stock) ∧
    ((⟨1, 0, [.finishedW]⟩ : CellState).rsv =
       inflightSum [1] (⟨1, 0, [.finishedW]⟩ : CellState).pcs ∧
     0 ≤ (⟨1, 0, [.finishedW]⟩ : CellState).rsv ∧
     ((∀ ph ∈ (⟨1, 0, [.finishedW]⟩ : CellState).pcs, ph ≠ WPhase.holding) →
       (⟨1, 0, [.finishedW]⟩ : CellState).rsv = 0)) := by
  have s1 : SerialStep [1] (initCell 1 1) ⟨1, 1, [.holding]⟩ :=
    SerialStep.checkReserve (i := 0) (q := 1) rfl rfl (by decide)
  have s2 : SerialStep [1] (⟨1, 1, [.holding]⟩ : CellState)
      ⟨0, 0, [.finishedW]⟩ :=
    SerialStep.dispense (i := 0) (q := 1) (r := 0) rfl rfl (by decide)
  have f1 : PharmStep [1] (initCell 1 1) ⟨1, 0, [.checked]⟩ :=
    PharmStep.check (i := 0) (q := 1) rfl rfl (by decide)
  have f2 : PharmStep [1] (⟨1, 0, [.checked]⟩ : CellState)
      ⟨1, 1, [.holding]⟩ :=
    PharmStep.reserve (i := 0) (q := 1) rfl rfl
  have f3 : PharmStep [1] (⟨1, 1, [.holding]⟩ : CellState)
      ⟨1, 0, [.finishedW]⟩ :=
    PharmStep.releaseRes (i := 0) (q := 1) rfl rfl
  exact pharmacy_reservation_amended [1] 1 1 ⟨0, 0, [.finishedW]⟩
    ⟨1, 0, [.finishedW]⟩ (by decide) (by decide)
    (SerialReach.tail (SerialReach.tail SerialReach.refl s1) s2)
    (PharmReach.tail (PharmReach.tail (PharmReach.tail PharmReach.refl f1) f2) f3)

/-- The appointment pass is a partition: patients above the threshold stay
untouched, patients at or below it are transferred in walk order. -/
theorem vitalAppointmentScan_spec (crit : Int) :
    ∀ aq : List TriagePatient,
      (vitalAppointmentScan crit aq).1 =
        aq.filter (fun p => decide (crit < p.stability)) ∧
      (vitalAppointmentScan crit aq).2 =
        (aq.filter (fun p => decide (p.stability ≤ crit))).map markTransferred := by
  intro aq
  induction aq with
  | nil => simp [vitalAppointmentScan]
  | cons p rest ih =>
    simp only [vitalAppointmentScan, List.filter_cons]
    rcases ih with ⟨ha, hb⟩
    by_cases h : p.stability ≤ crit
    · have h2 : ¬ crit < p.stability := not_lt.mpr h
      simp [h, h2, ha, hb, markTransferred]
    · have h2 : crit < p.stability := lt_of_not_le h
      simp [h, h2, ha, hb]

/-- C7: refuted — the vitals tick does NOT merely flag and re-insert
newly-critical emergency patients.  With two non-critical equal-priority
patients both one point above the critical threshold (threshold 50, both
at stability 51), one tick of the emergency pass flags and re-inserts the
first at the head, but leaves prev stale (null); when the second patient
then crosses the threshold, its splice writes head = curr->next, which
unlinks the just-re-inserted first patient.  After the tick nobody died,
yet only the second patient is reachable from the queue head, count is
still 2 against a reachable length of 1, and the first patient's node is
leaked in the heap with a dangling next pointer. -/
theorem vital_monitor_drops_reinserted_patient :
    (vital_emergency_pass 50 10
        { heap := [(1, ⟨{ id := "PAC00001", ptype := 1, priority := 3
                         , stability := 51, arrival_time := 0
                         , scheduled_time := 0, is_critical := false
                         , tests_id := [], meds_id := []
                         , doctor_specialty := 0 }, some 2⟩),
                   (2, ⟨{ id := "PAC00002", ptype := 1, priority := 3
                         , stability := 51, arrival_time := 0
                         , scheduled_time := 0, is_critical := false
                         , tests_id := [], meds_id := []
                         , doctor_specialty := 0 }, none⟩)]
        , head := some 1, count := 2 }).2 = [] ∧
    chainToList 10
        (vital_emergency_pass 50 10
          { heap := [(1, ⟨{ id := "PAC00001", ptype := 1, priority := 3
                           , stability := 51, arrival_time := 0
                           , scheduled_time := 0, is_critical := false
                           , tests_id := [], meds_id := []
                           , doctor_specialty := 0 }, some 2⟩),
                     (2, ⟨{ id := "PAC00002", ptype := 1, priority := 3
                           , stability := 51, arrival_time := 0
                           , scheduled_time := 0, is_critical := false
                           , tests_id := [], meds_id := []
                           , doctor_specialty := 0 }, none⟩)]
          , head := some 1, count := 2 }).1.heap
        (vital_emergency_pass 50 10
          { heap := [(1, ⟨{ id := "PAC00001", ptype := 1, priority := 3
                           , stability := 51, arrival_time := 0
                           , scheduled_time := 0, is_critical := false
                           , tests_id := [], meds_id := []
                           , doctor_specialty := 0 }, some 2⟩),
                     (2, ⟨{ id := "PAC00002", ptype := 1, priority := 3
                           , stability := 51, arrival_time := 0
                           , scheduled_time := 0, is_critical := false
                           , tests_id := [], meds_id := []
                           , doctor_specialty := 0 }, none⟩)]
          , head := some 1, count := 2 }).1.head =
      [{ id := "PAC00002", ptype := 1, priority := 3, stability := 50
        , arrival_time := 0, scheduled_time := 0, is_critical := true
        , tests_id := [], meds_id := [], doctor_specialty := 0 }] ∧
    (vital_emergency_pass 50 10
        { heap := [(1, ⟨{ id := "PAC00001", ptype := 1, priority := 3
                         , stability := 51, arrival_time := 0
                         , scheduled_time := 0, is_critical := false
                         , tests_id := [], meds_id := []
                         , doctor_specialty := 0 }, some 2⟩),
                   (2, ⟨{ id := "PAC00002", ptype := 1, priority := 3
                         , stability := 51, arrival_time := 0
                         , scheduled_time := 0, is_critical := false
                         , tests_id := [], meds_id := []
                         , doctor_specialty := 0 }, none⟩)]
        , head := some 1, count := 2 }).1.count = 2 ∧
    lookupNode
        (vital_emergency_pass 50 10
          { heap := [(1, ⟨{ id := "PAC00001", ptype := 1, priority := 3
                           , stability := 51, arrival_time := 0
                           , scheduled_time := 0, is_critical := false
                           , tests_id := [], meds_id := []
                           , doctor_specialty := 0 }, some 2⟩),
                     (2, ⟨{ id := "PAC00002", ptype := 1, priority := 3
                           , stability := 51, arrival_time := 0
                           , scheduled_time := 0, is_critical := false
                           , tests_id := [], meds_id := []
                           , doctor_specialty := 0 }, none⟩)]
          , head := some 1, count := 2 }).1.heap 1 =
      some ⟨{ id := "PAC00001", ptype := 1, priority := 3, stability := 50
             , arrival_time := 0, scheduled_time := 0, is_critical := true
             , tests_id := [], meds_id := [], doctor_specialty := 0 }, some 2⟩ := by
  decide
